import Mathlib

/-!
Verification of the signal-derivation and state-tracking engine of the
Indian market dashboard scripts (`indian_dashboard.py`,
`indian_dashboard_advanced.py`).

The scripts compute two simple moving averages of the close price,
classify each bar with an integer signal (1 = bullish / BUY,
-1 = bearish / SELL, 0 = undetermined), track per-symbol last signals in
a dictionary, fire a desktop notification when the stored signal differs
from the new one, and run all of this in an infinite
`while True: try ... except` polling loop.

Floating-point close prices are modelled as rationals (the claims are
about exact arithmetic of means and comparisons); pandas NaN cells are
modelled as `Option` with `none`.
-/

set_option autoImplicit false

namespace IndianDashboard

/-- `data["Close"].rolling(window=w).mean()` at row `i`
(pandas default `min_periods = w`): `NaN` (here `none`) while fewer than
`w` rows are available, otherwise the arithmetic mean of the `w` close
prices at rows `i - w + 1 .. i`. Rows beyond the frame are also `none`. -/
def rollingMean (closes : List ℚ) (w : Nat) (i : Nat) : Option ℚ :=
  if i + 1 < w ∨ closes.length ≤ i then none
  else some (((closes.drop (i + 1 - w)).take w).sum / (w : ℚ))

/-- The per-row signal assignment:
`data["Signal"] = 0`, then `1` where `SMA_short > SMA_long` and `-1`
where `SMA_short < SMA_long`. A comparison against a pandas NaN is
false, so a row with an undefined moving average keeps signal `0`. -/
def signalOf (s l : Option ℚ) : Int :=
  match s, l with
  | some a, some b => if a > b then 1 else if a < b then -1 else 0
  | _, _ => 0

/-- Signal of row `i` for close series `closes` with windows
`ma_short = ws` and `ma_long = wl`. -/
def signalAt (closes : List ℚ) (ws wl : Nat) (i : Nat) : Int :=
  signalOf (rollingMean closes ws i) (rollingMean closes wl i)

/-- `latest_signal = data["Signal"].iloc[-1]` (the scripts only reach
this line when `data` is nonempty). -/
def latestSignal (closes : List ℚ) (ws wl : Nat) : Int :=
  signalAt closes ws wl (closes.length - 1)

/-- `latest_close = float(data["Close"].iloc[-1])`. -/
def latestClose (closes : List ℚ) : ℚ :=
  closes.getLastD 0

/-- `status = "BUY 🟢" if latest_signal == 1 else "SELL 🔴"`
(identical in both scripts: `status` resp. `signal_text`). -/
def statusLabel (sig : Int) : String :=
  if sig = 1 then "BUY 🟢" else "SELL 🔴"

/-! ### The signal tracker (`last_signal_status` dictionary) -/

/-- The Python dict `last_signal_status` keyed by symbol, modelled as an
association list with at most one entry per key. -/
def lookupSym : List (String × Int) → String → Option Int
  | [], _ => none
  | (k, v) :: rest, s => if k = s then some v else lookupSym rest s

/-- Dictionary assignment `last_signal_status[symbol] = latest_signal`:
overwrite the entry if present, append it otherwise. -/
def setSym : List (String × Int) → String → Int → List (String × Int)
  | [], s, v => [(s, v)]
  | (k, w) :: rest, s, v =>
      if k = s then (s, v) :: rest else (k, w) :: setSym rest s v

/-- The alert guard
`symbol in last_signal_status and last_signal_status[symbol] != latest_signal`. -/
def signalChanged (store : List (String × Int)) (sym : String) (sig : Int) : Bool :=
  match lookupSym store sym with
  | some old => old != sig
  | none => false

/-- One tracker observation, with the notification assumed to succeed:
returns the updated store and whether a notification was fired
(lines 102–108 of the advanced script). -/
def observe (store : List (String × Int)) (sym : String) (sig : Int) :
    List (String × Int) × Bool :=
  (setSym store sym sig, signalChanged store sym sig)

/-- Feed a sequence of latest signals for one symbol through the
tracker (one per polling cycle), counting the notifications fired. -/
def runObservations (store : List (String × Int)) (sym : String) :
    List Int → List (String × Int) × Nat
  | [] => (store, 0)
  | sig :: rest =>
      let fired := signalChanged store sym sig
      let next := runObservations (setSym store sym sig) sym rest
      (next.1, (if fired then 1 else 0) + next.2)

/-! ### One polling cycle of the advanced (multi-symbol) script -/

/-- One row of `summary_data`:
`{"Stock": symbol, "Price (₹)": latest_close, "Signal": signal_text}`
(the price is formatted for display only; kept exact here). -/
structure SummaryRow where
  stock : String
  price : ℚ
  signal : String
deriving DecidableEq

/-- The summary row appended for a symbol with a nonempty series. -/
def rowOf (closes : List ℚ) (ws wl : Nat) (sym : String) : SummaryRow :=
  ⟨sym, latestClose closes, statusLabel (latestSignal closes ws wl)⟩

/-- The mutable state threaded through the `for symbol in symbols` loop:
the `last_signal_status` dict, the `summary_data` list, the
notifications actually delivered so far this cycle, and the per-symbol
warnings recorded so far this cycle. The advanced script's loop skips a
symbol with empty data with a bare `continue` and records no warning
anywhere, so the warnings list never grows. -/
structure CycleState where
  store : List (String × Int)
  summary : List SummaryRow
  alerts : List (String × Int)
  warnings : List String
deriving DecidableEq

/-- The body of `for symbol in symbols` (lines 80–112 of the advanced
script). `fetch` stands for `yf.download`, `notifyFails sym` says
whether `notification.notify` raises for this symbol this cycle.
`Except.error` is a raised exception carrying the loop state at the
raise point (dict mutations before it persist; the raise aborts the
cycle): `notification.notify` is called before
`last_signal_status[symbol] = latest_signal`, so on a notify failure the
stored signal keeps its previous value. -/
def stepSymbol (ws wl : Nat) (fetch : String → List ℚ)
    (notifyFails : String → Bool) (s : CycleState) (sym : String) :
    Except CycleState CycleState :=
  let closes := fetch sym
  if closes.isEmpty then
    Except.ok s
  else
    let sig := latestSignal closes ws wl
    let row : SummaryRow := ⟨sym, latestClose closes, statusLabel sig⟩
    let s1 : CycleState := { s with summary := s.summary ++ [row] }
    if signalChanged s1.store sym sig then
      if notifyFails sym then
        Except.error s1
      else
        Except.ok { s1 with store := setSym s1.store sym sig,
                            alerts := s1.alerts ++ [(sym, sig)] }
    else
      Except.ok { s1 with store := setSym s1.store sym sig }

/-- The whole `for symbol in symbols` loop: a raised exception aborts
the remaining symbols. -/
def runSymbols (ws wl : Nat) (fetch : String → List ℚ)
    (notifyFails : String → Bool) :
    List String → CycleState → Except CycleState CycleState
  | [], s => Except.ok s
  | sym :: rest, s =>
      match stepSymbol ws wl fetch notifyFails s sym with
      | Except.ok s1 => runSymbols ws wl fetch notifyFails rest s1
      | Except.error s1 => Except.error s1

/-- Outcome of one `try:` body. `published` is the normal exit after the
summary table is displayed; `failed` is the `except Exception` branch:
the summary is never displayed, only the dict mutations and the
notifications already delivered survive. -/
inductive CycleResult where
  | published (store : List (String × Int)) (summary : List SummaryRow)
      (alerts : List (String × Int)) (warnings : List String)
  | failed (store : List (String × Int)) (alerts : List (String × Int))
deriving DecidableEq

/-- One full cycle of `while True: try ... except` (lines 75–123 of the
advanced script). `publishFails` says whether displaying the summary
table raises (a presentation error). -/
def runCycle (ws wl : Nat) (fetch : String → List ℚ)
    (notifyFails : String → Bool) (publishFails : Bool)
    (symbols : List String) (store : List (String × Int)) : CycleResult :=
  match runSymbols ws wl fetch notifyFails symbols ⟨store, [], [], []⟩ with
  | Except.error s => CycleResult.failed s.store s.alerts
  | Except.ok s =>
      if publishFails then CycleResult.failed s.store s.alerts
      else CycleResult.published s.store s.summary s.alerts s.warnings

/-- The `last_signal_status` dict carried into the next cycle: both the
normal and the `except` exit keep the dict and then sleep. -/
def resultStore : CycleResult → List (String × Int)
  | CycleResult.published st _ _ _ => st
  | CycleResult.failed st _ => st

/-- The store the next cycle starts from, whatever happened in this one. -/
def nextStore (ws wl : Nat) (fetch : String → List ℚ)
    (notifyFails : String → Bool) (publishFails : Bool)
    (symbols : List String) (store : List (String × Int)) :
    List (String × Int) :=
  resultStore (runCycle ws wl fetch notifyFails publishFails symbols store)

/-- `n` consecutive cycles of the polling loop. -/
def runLoop (ws wl : Nat) (fetch : String → List ℚ)
    (notifyFails : String → Bool) (publishFails : Bool)
    (symbols : List String) : Nat → List (String × Int) → List (String × Int)
  | 0, store => store
  | n + 1, store =>
      runLoop ws wl fetch notifyFails publishFails symbols n
        (nextStore ws wl fetch notifyFails publishFails symbols store)

/-! ## Theorems -/

theorem signalOf_none_left (l : Option ℚ) : signalOf none l = 0 := by
  cases l <;> rfl

theorem signalOf_none_right (s : Option ℚ) : signalOf s none = 0 := by
  cases s <;> rfl

theorem signalOf_eq_one_iff (s l : Option ℚ) :
    signalOf s l = 1 ↔ ∃ a b, s = some a ∧ l = some b ∧ b < a := by
  cases s with
  | none => simp [signalOf]
  | some a =>
    cases l with
    | none => simp [signalOf]
    | some b =>
      simp only [signalOf, Option.some.injEq]
      rcases lt_trichotomy a b with h | h | h
      · simp [h, lt_asymm h]
      · subst h
        simp [lt_irrefl]
      · simp [h, lt_asymm h]

theorem signalOf_eq_negOne_iff (s l : Option ℚ) :
    signalOf s l = -1 ↔ ∃ a b, s = some a ∧ l = some b ∧ a < b := by
  cases s with
  | none => simp [signalOf]
  | some a =>
    cases l with
    | none => simp [signalOf]
    | some b =>
      simp only [signalOf, Option.some.injEq]
      rcases lt_trichotomy a b with h | h | h
      · simp [h, lt_asymm h]
      · subst h
        simp [lt_irrefl]
      · simp [h, lt_asymm h]

theorem signalOf_eq_zero_iff (s l : Option ℚ) :
    signalOf s l = 0 ↔ s = none ∨ l = none ∨ ∃ a, s = some a ∧ l = some a := by
  cases s with
  | none => simp [signalOf]
  | some a =>
    cases l with
    | none => simp [signalOf]
    | some b =>
      simp only [signalOf, Option.some.injEq]
      rcases lt_trichotomy a b with h | h | h
      · simp [h, lt_asymm h]
        exact (ne_of_lt h).symm
      · subst h
        simp [lt_irrefl]
      · simp [h, lt_asymm h]
        exact ne_of_lt h


/-- The signal of every row beyond the end of the frame, or in a series
shorter than the long window, rests on an undefined long MA. -/
theorem rollingMean_eq_none_of_short (closes : List ℚ) (w i : Nat)
    (h : closes.length < w ∨ closes.length ≤ i) : rollingMean closes w i = none := by
  unfold rollingMean
  rw [if_pos]
  omega

/-- C1: for every price bar, the signal is 1 (Bullish) iff both moving
averages are defined and the short one exceeds the long one, -1
(Bearish) iff both are defined and the short one is below the long one,
and 0 (Undetermined) iff either is undefined or they are exactly equal;
and for a series with fewer bars than the long window, every bar's long
MA is undefined and every bar's signal is 0. -/
theorem C1_trend_classification (closes : List ℚ) (ws wl i : Nat) :
    (signalAt closes ws wl i = 1 ↔
      ∃ a b, rollingMean closes ws i = some a ∧ rollingMean closes wl i = some b ∧ b < a)
  ∧ (signalAt closes ws wl i = -1 ↔
      ∃ a b, rollingMean closes ws i = some a ∧ rollingMean closes wl i = some b ∧ a < b)
  ∧ (signalAt closes ws wl i = 0 ↔
      rollingMean closes ws i = none ∨ rollingMean closes wl i = none ∨
        ∃ a, rollingMean closes ws i = some a ∧ rollingMean closes wl i = some a)
  ∧ (closes.length < wl →
      rollingMean closes wl i = none ∧ signalAt closes ws wl i = 0) := by
  refine ⟨signalOf_eq_one_iff _ _, signalOf_eq_negOne_iff _ _, signalOf_eq_zero_iff _ _, ?_⟩
  intro h
  have hn : rollingMean closes wl i = none :=
    rollingMean_eq_none_of_short closes wl i (Or.inl h)
  exact ⟨hn, by rw [signalAt, hn]; exact signalOf_none_right _⟩

theorem C1_witness :
    ([(10 : ℚ), 11, 12].length < 5
      → rollingMean [(10 : ℚ), 11, 12] 5 2 = none ∧ signalAt [(10 : ℚ), 11, 12] 2 5 2 = 0)
  ∧ (rollingMean [(10 : ℚ), 11, 12] 5 2 = none ∧ signalAt [(10 : ℚ), 11, 12] 2 5 2 = 0) := by
  have h := C1_trend_classification [(10 : ℚ), 11, 12] 2 5 2
  exact ⟨h.2.2.2, h.2.2.2 (by norm_num)⟩

/-- The sum of the length-`w` slice of `l` starting at position `a`,
written as a sum over positions of `l`. -/
theorem sum_slice (w : Nat) : ∀ (a : Nat) (l : List ℚ), a + w ≤ l.length →
    ((l.drop a).take w).sum = ∑ j ∈ Finset.range w, l.getD (a + j) 0 := by
  induction w with
  | zero => intro a l _; simp
  | succ n ih =>
    intro a l h
    have ha : a < l.length := by omega
    rw [List.drop_eq_getElem_cons ha, List.take_succ_cons, List.sum_cons,
      Finset.sum_range_succ', ih (a + 1) l (by omega)]
    have hg : l.getD (a + 0) 0 = l[a] := by
      simpa using List.getD_eq_getElem l 0 ha
    rw [hg]
    have : ∀ j, a + 1 + j = a + (j + 1) := by omega
    simp only [this]
    ring

/-- C2: for every positive window size `w`, the moving average at index
`i` is undefined for `i < w - 1` and beyond the frame, and otherwise
equals the arithmetic mean of the `w` trailing close prices ending at
`i` inclusive; concretely, for closes `[10,10,10,12,14,16,18,20]` with
windows 2 and 4, the bar at index 7 has short MA 19, long MA 17, and is
classified Bullish (signal 1). -/
theorem C2_rolling_mean (closes : List ℚ) (w i : Nat) (hw : 0 < w) :
    (i < w - 1 → rollingMean closes w i = none)
  ∧ (closes.length ≤ i → rollingMean closes w i = none)
  ∧ (w ≤ i + 1 → i < closes.length →
      rollingMean closes w i =
        some ((∑ j ∈ Finset.range w, closes.getD (i + 1 - w + j) 0) / (w : ℚ)))
  ∧ rollingMean [10, 10, 10, 12, 14, 16, 18, 20] 2 7 = some 19
  ∧ rollingMean [10, 10, 10, 12, 14, 16, 18, 20] 4 7 = some 17
  ∧ signalAt [10, 10, 10, 12, 14, 16, 18, 20] 2 4 7 = 1 := by
  refine ⟨?_, ?_, ?_, ?_, ?_, ?_⟩
  · intro h
    unfold rollingMean
    rw [if_pos (Or.inl (by omega))]
  · intro h
    exact rollingMean_eq_none_of_short closes w i (Or.inr h)
  · intro h1 h2
    unfold rollingMean
    rw [if_neg (by omega), sum_slice w (i + 1 - w) closes (by omega)]
  · simp [rollingMean]; norm_num
  · simp [rollingMean]; norm_num
  · simp [signalAt, rollingMean, signalOf]; norm_num

theorem C2_witness :
    (0 : Nat) < 2 ∧ rollingMean [10, 10, 10, 12, 14, 16, 18, 20] 2 7 = some 19 := by
  exact ⟨by norm_num, (C2_rolling_mean [10, 10, 10, 12, 14, 16, 18, 20] 2 7 (by norm_num)).2.2.2.1⟩

theorem lookupSym_setSym (store : List (String × Int)) (sym : String) (sig : Int) :
    lookupSym (setSym store sym sig) sym = some sig := by
  induction store with
  | nil => simp [setSym, lookupSym]
  | cons kv rest ih =>
    obtain ⟨k, v⟩ := kv
    by_cases hk : k = sym <;> simp [setSym, lookupSym, hk, ih]

theorem setSym_setSym (store : List (String × Int)) (sym : String) (sig : Int) :
    setSym (setSym store sym sig) sym sig = setSym store sym sig := by
  induction store with
  | nil => simp [setSym]
  | cons kv rest ih =>
    obtain ⟨k, v⟩ := kv
    by_cases hk : k = sym <;> simp [setSym, hk, ih]

/-- C3 counterexample: with stored signal 1 (Bullish) for "X", observing
signal 0 (Undetermined) fires a notification, because the guard only
compares for inequality. -/
theorem C3_counterexample :
    observe [("X", 1)] "X" 0 = ([("X", 0)], true) := by decide

/-- C3 amended: observing Undetermined stores it, and fires a
notification exactly when a stored signal exists and differs from 0;
the five-step scenario still fires exactly two notifications. -/
theorem C3_undetermined_amended (store : List (String × Int)) (sym : String) :
    (observe store sym 0).1 = setSym store sym 0
  ∧ ((observe store sym 0).2 = true ↔
      ∃ old, lookupSym store sym = some old ∧ old ≠ 0)
  ∧ runObservations [] "X" [0, 0, 1, 1, -1] = ([("X", -1)], 2) := by
  refine ⟨rfl, ?_, by decide⟩
  simp only [observe, signalChanged]
  cases h : lookupSym store sym with
  | none => simp
  | some old => simp [h]

/-- C4 counterexample: a series whose last bar is an exact MA tie has
latest signal 0, yet the label computed from it is the SELL label — the
very string used for the Bearish state, not a third distinct label. -/
theorem C4_counterexample :
    latestSignal [10, 10] 1 2 = 0
  ∧ statusLabel (latestSignal [10, 10] 1 2) = "SELL 🔴"
  ∧ statusLabel (-1) = "SELL 🔴" := by
  have h0 : latestSignal [10, 10] 1 2 = 0 := by
    norm_num [latestSignal, signalAt, rollingMean, signalOf]
  exact ⟨h0, by rw [h0]; rfl, rfl⟩

/-- C4 amended: an exact tie or an undefined MA at the last bar yields
latest signal 0, a value distinct from 1 and -1; but the exposed label
collapses it onto the SELL label, identical to the Bearish one. -/
theorem C4_tie_label_amended (closes : List ℚ) (ws wl : Nat)
    (h : rollingMean closes ws (closes.length - 1) =
           rollingMean closes wl (closes.length - 1)
         ∨ rollingMean closes ws (closes.length - 1) = none
         ∨ rollingMean closes wl (closes.length - 1) = none) :
    latestSignal closes ws wl = 0
  ∧ statusLabel (latestSignal closes ws wl) = "SELL 🔴"
  ∧ statusLabel (latestSignal closes ws wl) = statusLabel (-1)
  ∧ statusLabel (latestSignal closes ws wl) ≠ statusLabel 1 := by
  have h0 : latestSignal closes ws wl = 0 := by
    unfold latestSignal signalAt
    rcases h with h | h | h
    · rw [h]
      cases hl : rollingMean closes wl (closes.length - 1) with
      | none => exact signalOf_none_left _
      | some a => simp [signalOf, lt_irrefl]
    · rw [h]; exact signalOf_none_left _
    · rw [h]; exact signalOf_none_right _
  refine ⟨h0, by rw [h0]; rfl, by rw [h0]; rfl, by rw [h0]; decide⟩

theorem C4_witness :
    latestSignal [10, 10] 1 2 = 0
  ∧ statusLabel (latestSignal [10, 10] 1 2) = statusLabel (-1) := by
  have h := C4_tie_label_amended [10, 10] 1 2
    (Or.inl (by norm_num [rollingMean]))
  exact ⟨h.1, h.2.2.1⟩

/-- C5: the very first observation of a symbol (no stored signal)
stores the new signal and fires no notification, whatever the signal. -/
theorem C5_cold_start (store : List (String × Int)) (sym : String) (sig : Int)
    (h : lookupSym store sym = none) :
    observe store sym sig = (setSym store sym sig, false) := by
  simp [observe, signalChanged, h]

theorem C5_witness :
    lookupSym [] "X" = none ∧ observe [] "X" 1 = ([("X", 1)], false) := by
  exact ⟨rfl, C5_cold_start [] "X" 1 rfl⟩

/-- C6: observing the same (symbol, signal) twice in a row fires at
most one notification: the second, consecutive identical observation
never fires and leaves the stored dictionary exactly as it was. -/
theorem C6_idempotent (store : List (String × Int)) (sym : String) (sig : Int) :
    (observe (observe store sym sig).1 sym sig).2 = false
  ∧ (observe (observe store sym sig).1 sym sig).1 = (observe store sym sig).1 := by
  constructor
  · simp [observe, signalChanged, lookupSym_setSym]
  · simp [observe, setSym_setSym]

theorem stepSymbol_of_empty (ws wl : Nat) (fetch : String → List ℚ)
    (nf : String → Bool) (s : CycleState) (sym : String)
    (h1 : (fetch sym).isEmpty = true) :
    stepSymbol ws wl fetch nf s sym = Except.ok s := by
  simp [stepSymbol, h1]

theorem stepSymbol_of_unchanged (ws wl : Nat) (fetch : String → List ℚ)
    (nf : String → Bool) (s : CycleState) (sym : String)
    (h1 : (fetch sym).isEmpty = false)
    (h2 : signalChanged s.store sym (latestSignal (fetch sym) ws wl) = false) :
    stepSymbol ws wl fetch nf s sym =
      Except.ok { s with store := setSym s.store sym (latestSignal (fetch sym) ws wl),
                         summary := s.summary ++ [rowOf (fetch sym) ws wl sym] } := by
  simp [stepSymbol, h1, h2, rowOf]

theorem stepSymbol_of_alert_delivered (ws wl : Nat) (fetch : String → List ℚ)
    (nf : String → Bool) (s : CycleState) (sym : String)
    (h1 : (fetch sym).isEmpty = false)
    (h2 : signalChanged s.store sym (latestSignal (fetch sym) ws wl) = true)
    (h3 : nf sym = false) :
    stepSymbol ws wl fetch nf s sym =
      Except.ok { s with store := setSym s.store sym (latestSignal (fetch sym) ws wl),
                         summary := s.summary ++ [rowOf (fetch sym) ws wl sym],
                         alerts := s.alerts ++ [(sym, latestSignal (fetch sym) ws wl)] } := by
  simp [stepSymbol, h1, h2, h3, rowOf]

theorem stepSymbol_of_alert_raised (ws wl : Nat) (fetch : String → List ℚ)
    (nf : String → Bool) (s : CycleState) (sym : String)
    (h1 : (fetch sym).isEmpty = false)
    (h2 : signalChanged s.store sym (latestSignal (fetch sym) ws wl) = true)
    (h3 : nf sym = true) :
    stepSymbol ws wl fetch nf s sym =
      Except.error { s with summary := s.summary ++ [rowOf (fetch sym) ws wl sym] } := by
  simp [stepSymbol, h1, h2, h3, rowOf]

theorem stepSymbol_warnings (ws wl : Nat) (fetch : String → List ℚ)
    (nf : String → Bool) (s : CycleState) (sym : String) :
    (∀ s1, stepSymbol ws wl fetch nf s sym = Except.ok s1 → s1.warnings = s.warnings)
  ∧ (∀ s1, stepSymbol ws wl fetch nf s sym = Except.error s1 → s1.warnings = s.warnings) := by
  by_cases h1 : (fetch sym).isEmpty = true
  · rw [stepSymbol_of_empty ws wl fetch nf s sym h1]
    exact ⟨fun s1 h => (by injection h with h; rw [← h]),
           fun s1 h => nomatch h⟩
  · have h1' : (fetch sym).isEmpty = false := by simpa using h1
    by_cases h2 : signalChanged s.store sym (latestSignal (fetch sym) ws wl) = true
    · by_cases h3 : nf sym = true
      · rw [stepSymbol_of_alert_raised ws wl fetch nf s sym h1' h2 h3]
        exact ⟨fun s1 h => (nomatch h),
               fun s1 h => by injection h with h; rw [← h]⟩
      · have h3' : nf sym = false := by simpa using h3
        rw [stepSymbol_of_alert_delivered ws wl fetch nf s sym h1' h2 h3']
        exact ⟨fun s1 h => (by injection h with h; rw [← h]),
               fun s1 h => nomatch h⟩
    · have h2' : signalChanged s.store sym (latestSignal (fetch sym) ws wl) = false := by
        simpa using h2
      rw [stepSymbol_of_unchanged ws wl fetch nf s sym h1' h2']
      exact ⟨fun s1 h => (by injection h with h; rw [← h]),
             fun s1 h => nomatch h⟩

theorem runSymbols_warnings (ws wl : Nat) (fetch : String → List ℚ)
    (nf : String → Bool) :
    ∀ (syms : List String) (s : CycleState),
      (∀ s1, runSymbols ws wl fetch nf syms s = Except.ok s1 → s1.warnings = s.warnings)
    ∧ (∀ s1, runSymbols ws wl fetch nf syms s = Except.error s1 → s1.warnings = s.warnings) := by
  intro syms
  induction syms with
  | nil =>
    intro s
    refine ⟨fun s1 h => ?_, fun s1 h => ?_⟩
    · injection h with h
      rw [← h]
    · cases h
  | cons sym rest ih =>
    intro s
    have hw := stepSymbol_warnings ws wl fetch nf s sym
    cases hstep : stepSymbol ws wl fetch nf s sym with
    | ok s1 =>
      have hs1 : s1.warnings = s.warnings := hw.1 s1 hstep
      refine ⟨fun s2 h2 => ?_, fun s2 h2 => ?_⟩
      · simp only [runSymbols, hstep] at h2
        rw [(ih s1).1 s2 h2, hs1]
      · simp only [runSymbols, hstep] at h2
        rw [(ih s1).2 s2 h2, hs1]
    | error s1 =>
      have hs1 : s1.warnings = s.warnings := hw.2 s1 hstep
      refine ⟨fun s2 h2 => ?_, fun s2 h2 => ?_⟩
      · simp only [runSymbols, hstep] at h2
        cases h2
      · simp only [runSymbols, hstep] at h2
        injection h2 with h2
        rw [← h2, hs1]

theorem runCycle_published_warnings (ws wl : Nat) (fetch : String → List ℚ)
    (nf : String → Bool) (pf : Bool) (symbols : List String)
    (store st : List (String × Int)) (sm : List SummaryRow)
    (al : List (String × Int)) (w : List String)
    (h : runCycle ws wl fetch nf pf symbols store = CycleResult.published st sm al w) :
    w = [] := by
  unfold runCycle at h
  cases hrun : runSymbols ws wl fetch nf symbols ⟨store, [], [], []⟩ with
  | error s => rw [hrun] at h; cases h
  | ok s =>
    rw [hrun] at h
    by_cases hpf : pf
    · simp [hpf] at h
    · simp only [hpf, if_false] at h
      injection h with h1 h2 h3 h4
      have hs : s.warnings = (⟨store, [], [], []⟩ : CycleState).warnings :=
        (runSymbols_warnings ws wl fetch nf symbols ⟨store, [], [], []⟩).1 s hrun
      rw [← h4, hs]

theorem stepSymbol_empty (ws wl : Nat) (fetch : String → List ℚ)
    (nf : String → Bool) (s : CycleState) (sym : String) (h : fetch sym = []) :
    stepSymbol ws wl fetch nf s sym = Except.ok s := by
  simp [stepSymbol, h]

theorem runSymbols_skip (ws wl : Nat) (fetch : String → List ℚ)
    (nf : String → Bool) (sym : String) (h : fetch sym = []) :
    ∀ (pre post : List String) (s : CycleState),
      runSymbols ws wl fetch nf (pre ++ sym :: post) s =
        runSymbols ws wl fetch nf (pre ++ post) s := by
  intro pre
  induction pre with
  | nil =>
    intro post s
    simp only [List.nil_append, runSymbols,
      stepSymbol_empty ws wl fetch nf s sym h]
  | cons x pre ih =>
    intro post s
    simp only [List.cons_append, runSymbols]
    cases hstep : stepSymbol ws wl fetch nf s x <;> simp [ih]

/-- C7 counterexample: in a 3-symbol cycle where only "B" has no data,
the rows for "A" and "C" are computed and published in the same cycle,
but the cycle records no warning at all for "B" — the skip is silent. -/
theorem C7_counterexample :
    runCycle 1 2 (fun s => if s = "B" then [] else [10, 12]) (fun _ => false) false
      ["A", "B", "C"] [] =
    CycleResult.published [("A", 1), ("C", 1)]
      [⟨"A", 12, "BUY 🟢"⟩, ⟨"C", 12, "BUY 🟢"⟩] [] [] := by
  simp [runCycle, runSymbols, stepSymbol, latestSignal, signalAt, rollingMean,
    signalOf, latestClose, statusLabel, signalChanged, lookupSym, setSym]
  norm_num

/-- C7 amended: a symbol with an empty fetched series is skipped
silently — the cycle behaves exactly as if the symbol were absent, and
no per-symbol warning is ever recorded — while the other symbols'
rows are still computed and published in the same cycle. -/
theorem C7_empty_symbol_isolated (ws wl : Nat) (fetch : String → List ℚ)
    (nf : String → Bool) (pf : Bool) (sym : String) (pre post : List String)
    (store : List (String × Int)) (h : fetch sym = []) :
    runCycle ws wl fetch nf pf (pre ++ sym :: post) store =
      runCycle ws wl fetch nf pf (pre ++ post) store
  ∧ (∀ st sm al w, runCycle ws wl fetch nf pf (pre ++ sym :: post) store =
        CycleResult.published st sm al w → w = []) := by
  constructor
  · unfold runCycle
    rw [runSymbols_skip ws wl fetch nf sym h pre post ⟨store, [], [], []⟩]
  · intro st sm al w hw
    exact runCycle_published_warnings ws wl fetch nf pf (pre ++ sym :: post)
      store st sm al w hw

theorem C7_witness :
    ((fun s => if s = "B" then ([] : List ℚ) else [10, 12]) "B" = [])
  ∧ runCycle 1 2 (fun s => if s = "B" then [] else [10, 12]) (fun _ => false) false
      (["A"] ++ "B" :: ["C"]) [] =
      runCycle 1 2 (fun s => if s = "B" then [] else [10, 12]) (fun _ => false) false
      (["A"] ++ ["C"]) [] := by
  refine ⟨rfl, ?_⟩
  exact (C7_empty_symbol_isolated 1 2 (fun s => if s = "B" then [] else [10, 12])
    (fun _ => false) false "B" ["A"] ["C"] [] rfl).1

/-- A notification failure on the first symbol of the cycle aborts the
whole cycle inside the `try` body: the dict keeps its previous contents,
no notification is recorded, nothing is published. -/
theorem runCycle_notify_failure (ws wl : Nat) (fetch : String → List ℚ)
    (nf : String → Bool) (pf : Bool) (sym : String) (rest : List String)
    (store : List (String × Int))
    (h1 : (fetch sym).isEmpty = false)
    (hch : signalChanged store sym (latestSignal (fetch sym) ws wl) = true)
    (hf : nf sym = true) :
    runCycle ws wl fetch nf pf (sym :: rest) store = CycleResult.failed store [] := by
  unfold runCycle
  rw [show runSymbols ws wl fetch nf (sym :: rest) ⟨store, [], [], []⟩ =
        Except.error { (⟨store, [], [], []⟩ : CycleState) with
          summary := [] ++ [rowOf (fetch sym) ws wl sym] } from by
    simp only [runSymbols, stepSymbol_of_alert_raised ws wl fetch nf
      ⟨store, [], [], []⟩ sym h1 hch hf]]

/-- C8 counterexample: three tracked symbols all flip from signal 1 to
signal -1; the notification for "B" raises. The cycle ends in the
`except` branch: no summary is published, "C" is never processed (its
stored signal is still 1), "B" keeps its old signal, and only the alert
for "A" was delivered. -/
theorem C8_counterexample :
    runCycle 1 2 (fun _ => [12, 10]) (fun s => s == "B") false ["A", "B", "C"]
      [("A", 1), ("B", 1), ("C", 1)] =
    CycleResult.failed [("A", -1), ("B", 1), ("C", 1)] [("A", -1)] := by
  simp [runCycle, runSymbols, stepSymbol, latestSignal, signalAt, rollingMean,
    signalOf, latestClose, statusLabel, signalChanged, lookupSym, setSym]
  norm_num
  simp [lookupSym, setSym]

/-- C8 amended: a failed notification never terminates the loop — the
cycle-level handler catches it and the next cycle starts from the dict
as mutated so far — but it does abort the rest of the cycle: with the
failing symbol first, the remaining symbols are not processed, nothing
is published, and the failing symbol's stored signal is unchanged. -/
theorem C8_alert_failure (ws wl : Nat) (fetch : String → List ℚ)
    (nf : String → Bool) (pf : Bool) (sym : String) (rest : List String)
    (store : List (String × Int))
    (h1 : (fetch sym).isEmpty = false)
    (hch : signalChanged store sym (latestSignal (fetch sym) ws wl) = true)
    (hf : nf sym = true) :
    runCycle ws wl fetch nf pf (sym :: rest) store = CycleResult.failed store []
  ∧ nextStore ws wl fetch nf pf (sym :: rest) store = store := by
  have h := runCycle_notify_failure ws wl fetch nf pf sym rest store h1 hch hf
  exact ⟨h, by unfold nextStore; rw [h]; rfl⟩

theorem C8_witness :
    signalChanged [("B", 1)] "B" (latestSignal [12, 10] 1 2) = true
  ∧ runCycle 1 2 (fun _ => [12, 10]) (fun _ => true) false ["B", "C"] [("B", 1)] =
      CycleResult.failed [("B", 1)] [] := by
  have hch : signalChanged [("B", 1)] "B" (latestSignal [12, 10] 1 2) = true := by
    norm_num [signalChanged, lookupSym, latestSignal, signalAt, rollingMean, signalOf]
  exact ⟨hch, (C8_alert_failure 1 2 (fun _ => [12, 10]) (fun _ => true) false "B" ["C"]
    [("B", 1)] rfl hch rfl).1⟩

/-- C9: the polling loop always starts another cycle: running `n + 1`
cycles is running one cycle and then `n` more from the resulting dict,
and when the cycle body raised, the next cycle starts from the dict the
`except` handler preserved. -/
theorem C9_loop_progress (ws wl : Nat) (fetch : String → List ℚ)
    (nf : String → Bool) (pf : Bool) (symbols : List String)
    (store : List (String × Int)) :
    (∀ n, runLoop ws wl fetch nf pf symbols (n + 1) store =
        runLoop ws wl fetch nf pf symbols n
          (nextStore ws wl fetch nf pf symbols store))
  ∧ (∀ st al, runCycle ws wl fetch nf pf symbols store = CycleResult.failed st al →
        nextStore ws wl fetch nf pf symbols store = st) := by
  refine ⟨fun n => rfl, fun st al h => ?_⟩
  unfold nextStore
  rw [h]
  rfl

theorem C9_witness :
    runCycle 1 2 (fun _ => []) (fun _ => false) true [] [] = CycleResult.failed [] []
  ∧ nextStore 1 2 (fun _ => []) (fun _ => false) true [] [] = []
  ∧ runLoop 1 2 (fun _ => []) (fun _ => false) true [] 1 [] =
      runLoop 1 2 (fun _ => []) (fun _ => false) true [] 0
        (nextStore 1 2 (fun _ => []) (fun _ => false) true [] []) := by
  have h := C9_loop_progress 1 2 (fun _ => []) (fun _ => false) true [] []
  exact ⟨rfl, h.2 [] [] rfl, h.1 0⟩

/-- C10: `last_signal_status[symbol] = latest_signal` runs after
`notification.notify`; when notify raises, the stored signal keeps its
previous value, so on the next cycle with the same latest signal the
guard fires again, and on a delivered notification the store is updated
together with the alert. -/
theorem C10_store_kept_on_alert_failure (ws wl : Nat) (fetch : String → List ℚ)
    (nf : String → Bool) (pf : Bool) (sym : String) (rest : List String)
    (store : List (String × Int)) (old : Int)
    (h1 : (fetch sym).isEmpty = false)
    (hold : lookupSym store sym = some old)
    (hdiff : old ≠ latestSignal (fetch sym) ws wl)
    (hf : nf sym = true) :
    nextStore ws wl fetch nf pf (sym :: rest) store = store
  ∧ lookupSym (nextStore ws wl fetch nf pf (sym :: rest) store) sym = some old
  ∧ signalChanged (nextStore ws wl fetch nf pf (sym :: rest) store) sym
      (latestSignal (fetch sym) ws wl) = true
  ∧ (∀ nf' : String → Bool, nf' sym = false →
      stepSymbol ws wl fetch nf' ⟨store, [], [], []⟩ sym =
        Except.ok ⟨setSym store sym (latestSignal (fetch sym) ws wl),
          [rowOf (fetch sym) ws wl sym],
          [(sym, latestSignal (fetch sym) ws wl)], []⟩) := by
  have hch : signalChanged store sym (latestSignal (fetch sym) ws wl) = true := by
    simp [signalChanged, hold, hdiff]
  have h := runCycle_notify_failure ws wl fetch nf pf sym rest store h1 hch hf
  have hns : nextStore ws wl fetch nf pf (sym :: rest) store = store := by
    unfold nextStore
    rw [h]
    rfl
  refine ⟨hns, by rw [hns]; exact hold, by rw [hns]; exact hch, fun nf' hnf' => ?_⟩
  exact stepSymbol_of_alert_delivered ws wl fetch nf' ⟨store, [], [], []⟩ sym h1 hch hnf'

theorem C10_witness :
    lookupSym [("D", 1)] "D" = some 1
  ∧ (1 : Int) ≠ latestSignal [12, 10] 1 2
  ∧ nextStore 1 2 (fun _ => [12, 10]) (fun _ => true) false ["D"] [("D", 1)] = [("D", 1)]
  ∧ signalChanged (nextStore 1 2 (fun _ => [12, 10]) (fun _ => true) false ["D"] [("D", 1)])
      "D" (latestSignal [12, 10] 1 2) = true := by
  have hdiff : (1 : Int) ≠ latestSignal [12, 10] 1 2 := by
    norm_num [latestSignal, signalAt, rollingMean, signalOf]
  have h := C10_store_kept_on_alert_failure 1 2 (fun _ => [12, 10]) (fun _ => true)
    false "D" [] [("D", 1)] 1 rfl rfl hdiff rfl
  exact ⟨rfl, hdiff, h.1, h.2.2.1⟩

end IndianDashboard
